import Mathlib

/-!
# External parser set-up (`external_parser/parse_example_external.cc`)

A shallow embedding of the option handling of the binary external parser:
the three string-to-enum tables and `parser::get_external_parser`.

* A `std::string` is its sequence of bytes, each a `Nat` below 256.
* A `const char *` is the sequence of bytes stored at the pointer; a
  terminating NUL byte follows the last one.  `std::string::c_str` returns a
  pointer to the bytes of the string, so reading through it stops at the first
  NUL byte of the string, or at the terminator when the string holds none.
* `throw std::runtime_error(msg)` is `Except.error msg`.
* Objects built with `make_unique` are recorded, in order, in a construction
  log returned next to the result.
-/

namespace VW
namespace external

/-! ## Strings -/

/-- Bytes of a `std::string`. -/
abbrev std_string := List Nat

/-- Bytes of an ASCII string literal of the source. -/
def lit (s : String) : std_string := s.toList.map Char.toNat

/-- The byte `'.'`. -/
def dot : Nat := 46

/-- The value `std::string::npos`, the largest `size_t` (64 bits). -/
def npos : Nat := 2 ^ 64 - 1

/-- The function `tolower` of the "C" locale: `'A'..'Z'` go to `'a'..'z'`, every
other byte is unchanged. -/
def tolower (c : Nat) : Nat := if 65 ≤ c ∧ c ≤ 90 then c + 32 else c

/-- The pointer `str.c_str()`: the bytes of `str`, followed by a NUL. -/
def c_str (str : std_string) : List Nat := str

/-- The comparison `_stricmp` (`strcasecmp` off Windows) of two NUL-terminated
byte sequences: the difference of the first pair of bytes that differ after
`tolower`, and `0` when both sequences reach a NUL together.  An exhausted list
stands at its terminator. -/
def _stricmp : List Nat → List Nat → Int
  | [], [] => 0
  | [], b :: _ => 0 - (tolower b : Int)
  | a :: _, [] => (tolower a : Int)
  | a :: as, b :: bs =>
    if tolower a ≠ tolower b then (tolower a : Int) - (tolower b : Int)
    else if a = 0 then 0
    else _stricmp as bs

/-! ## Enumerations of the generated schema -/

/-- Modelled from the spec: the enumerators of `v2::ProblemType` that the source
names; the generated schema header is not among the sources. -/
inductive ProblemType
  | ProblemType_UNKNOWN
  | ProblemType_CB
  | ProblemType_CCB
  | ProblemType_SLATES
  | ProblemType_CA
  deriving DecidableEq, Repr

/-- Modelled from the spec: the enumerators of `v2::RewardFunctionType` that the
source names; the generated schema header is not among the sources. -/
inductive RewardFunctionType
  | RewardFunctionType_Earliest
  | RewardFunctionType_Average
  | RewardFunctionType_Median
  | RewardFunctionType_Sum
  | RewardFunctionType_Min
  | RewardFunctionType_Max
  deriving DecidableEq, Repr

/-- Modelled from the spec: the enumerators of `v2::LearningModeType` that the
source names; the generated schema header is not among the sources. -/
inductive LearningModeType
  | LearningModeType_Online
  | LearningModeType_Apprentice
  | LearningModeType_LoggingOnly
  deriving DecidableEq, Repr

open ProblemType RewardFunctionType LearningModeType

/-- The two range aliases `RewardFunctionType_MIN` and `LearningModeType_MIN` of
the generated schema header.  The header is not among the sources, so the
enumerator each one stands for is a parameter of the development. -/
structure schema where
  RewardFunctionType_MIN : RewardFunctionType
  LearningModeType_MIN : LearningModeType

/-! ## The three tables and their look-ups -/

/-- The table `problem_types`. -/
def problem_types : List (List Nat × ProblemType) :=
  [ (lit "cb", ProblemType_CB),
    (lit "ccb", ProblemType_CCB),
    (lit "slates", ProblemType_SLATES),
    (lit "ca", ProblemType_CA) ]

/-- The function `str_to_problem_type`: the returned flag, and the value left in
the out-parameter `type`. -/
def str_to_problem_type (str : std_string) : Bool × ProblemType :=
  match problem_types.find? (fun p => _stricmp p.1 (c_str str) == 0) with
  | some p => (true, p.2)
  | none => (false, ProblemType_UNKNOWN)

/-- The table `reward_functions`. -/
def reward_functions : List (List Nat × RewardFunctionType) :=
  [ (lit "earliest", RewardFunctionType_Earliest),
    (lit "average", RewardFunctionType_Average),
    (lit "median", RewardFunctionType_Median),
    (lit "sum", RewardFunctionType_Sum),
    (lit "min", RewardFunctionType_Min),
    (lit "max", RewardFunctionType_Max) ]

/-- The function `str_to_reward_function`: the returned flag, and the value left
in the out-parameter `reward_function`. -/
def str_to_reward_function (sch : schema) (str : std_string) : Bool × RewardFunctionType :=
  match reward_functions.find? (fun p => _stricmp p.1 (c_str str) == 0) with
  | some p => (true, p.2)
  | none => (false, sch.RewardFunctionType_MIN)

/-- The table `learning_modes`. -/
def learning_modes : List (List Nat × LearningModeType) :=
  [ (lit "online", LearningModeType_Online),
    (lit "apprentice", LearningModeType_Apprentice),
    (lit "loggingonly", LearningModeType_LoggingOnly) ]

/-- The function `str_to_learning_mode`: the returned flag, and the value left in
the out-parameter `mode`. -/
def str_to_learning_mode (sch : schema) (str : std_string) : Bool × LearningModeType :=
  match learning_modes.find? (fun p => _stricmp p.1 (c_str str) == 0) with
  | some p => (true, p.2)
  | none => (false, sch.LearningModeType_MIN)


/-! ## Set-up: options, joiners, parsers -/

/-- A `float`, by its bit pattern; the code only copies it. -/
structure float where
  bits : Nat
  deriving DecidableEq, Repr

/-- Modelled from the spec: the configuration record `parser_options`, whose declaration
is not among the sources, with the fields that the source reads: the two mode flags,
the multistep flag, the default reward and the three enumeration strings. -/
structure parser_options where
  binary : Bool
  binary_to_json : Bool
  multistep : Bool
  default_reward : float
  problem_type : std_string
  reward_function : std_string
  learning_mode : std_string

/-- Modelled from the spec: the record `input_options`, whose declaration is not among the
sources, with the external options that `ext_opts` points to. -/
structure input_options where
  ext_opts : parser_options

/-- The fields of `vw` that the source reads: the data file name, and
`options->was_supplied` as a function of the option name. -/
structure vw where
  data_filename : std_string
  was_supplied : String → Bool

/-- A setter call that the source makes on a joiner, with its two arguments. -/
inductive joiner_call
  | set_default_reward (default_reward : float) (sticky : Bool)
  | set_problem_type_config (type : ProblemType) (sticky : Bool)
  | set_learning_mode_config (mode : LearningModeType) (sticky : Bool)
  | set_reward_function (reward_function : RewardFunctionType) (sticky : Bool)
  deriving DecidableEq, Repr

/-- The three constructor calls of the source that build a joiner:
`example_joiner(all)`, `example_joiner(all, binary_to_json, outfile_name)` and
`multistep_example_joiner(all)`. -/
inductive joiner_ctor
  | example_joiner
  | example_joiner_json (binary_to_json : Bool) (outfile_name : std_string)
  | multistep_example_joiner
  deriving DecidableEq, Repr

/-- Modelled from the spec: a joiner behind `i_joiner`, whose classes are not among
the sources, as the constructor call that built it and the setter calls made on it
since, oldest first. -/
structure i_joiner where
  ctor : joiner_ctor
  calls : List joiner_call
  deriving DecidableEq, Repr

/-- A method call through `joiner->`. -/
def i_joiner.call (j : i_joiner) (c : joiner_call) : i_joiner :=
  { j with calls := j.calls ++ [c] }

/-- Modelled from the spec: the two classes of parser that the source returns,
`binary_json_converter` and `binary_parser` (here `binaryParser`), whose declarations are
not among the sources, each owning the joiner moved into it. -/
inductive parser
  | binary_json_converter (joiner : i_joiner)
  | binaryParser (joiner : i_joiner)
  deriving DecidableEq, Repr

/-- An object built by `make_unique`: a joiner, by its constructor call, or one of the two
parsers. -/
inductive constructed
  | joiner (c : joiner_ctor)
  | binary_json_converter
  | binaryParser
  deriving DecidableEq, Repr

/-- A computation of the set-up: it may throw a `std::runtime_error` or a
`std::out_of_range`, carried as the message, and it appends to the log of
constructed objects. -/
abbrev setup (α : Type) := ExceptT std_string (StateM (List constructed)) α

/-- A call of `make_unique`: the object joins the log.  The constructors, which are not
among the sources, are taken not to throw. -/
def make_unique (c : constructed) : setup Unit :=
  modify (fun log => log ++ [c])

/-- The search of `s.find_last_of(c)`: the index of the last byte equal to `c`, if
there is one. -/
def rfind (c : Nat) : std_string → Option Nat
  | [] => none
  | x :: xs =>
    match rfind c xs with
    | some i => some (i + 1)
    | none => if x = c then some 0 else none

/-- The call `s.find_last_of(c)`, which is `npos` when `c` does not occur.  The source
calls it with `'.'` and with ".", which search for the same byte. -/
def find_last_of (s : std_string) (c : Nat) : Nat :=
  (rfind c s).getD npos

/-- The call `s.substr(pos, count)`: it throws `std::out_of_range` when `pos` is
beyond the size, and else gives the `count` bytes from `pos`, or those up to the
end when fewer remain.  The text of the exception is shortened here. -/
def substr (s : std_string) (pos : Nat) (count : Nat) : setup std_string :=
  if pos > s.length then throw (lit "basic_string::substr")
  else pure ((s.drop pos).take count)

/-- The function `parser::get_external_parser`.  The sum `find_last_of(".") + 1` is one of
`size_t`, so it is taken modulo `2 ^ 64`. -/
def getExternalParser (sch : schema) (all : vw) (parsed_options : input_options) :
    setup parser := do
  if parsed_options.ext_opts.binary then
    let binary_to_json := parsed_options.ext_opts.binary_to_json
    if binary_to_json then
      let infile_path := all.data_filename
      let infile_name ← substr infile_path 0 (find_last_of infile_path dot)
      let infile_extension ←
        substr infile_path ((find_last_of infile_path dot + 1) % 2 ^ 64) npos
      if infile_extension = lit "dsjson" then
        throw (lit "input file for --binary_to_json option should be binary format, file provided: "
          ++ infile_path)
      let outfile_name := infile_name ++ lit ".dsjson"
      make_unique (.joiner (.example_joiner_json binary_to_json outfile_name))
      let joiner : i_joiner := ⟨.example_joiner_json binary_to_json outfile_name, []⟩
      make_unique .binary_json_converter
      return .binary_json_converter joiner
    else
      make_unique (.joiner .example_joiner)
      let mut joiner : i_joiner := ⟨.example_joiner, []⟩
      if parsed_options.ext_opts.multistep then
        make_unique (.joiner .multistep_example_joiner)
        joiner := ⟨.multistep_example_joiner, []⟩
      if all.was_supplied "default_reward" then
        joiner := joiner.call (.set_default_reward parsed_options.ext_opts.default_reward true)
      if all.was_supplied "problem_type" then
        let (ok, problem_type) := str_to_problem_type parsed_options.ext_opts.problem_type
        if !ok then
          throw (lit "Invalid argument to --problem_type " ++ parsed_options.ext_opts.problem_type)
        joiner := joiner.call (.set_problem_type_config problem_type true)
      if all.was_supplied "learning_mode" then
        let (ok, learning_mode) := str_to_learning_mode sch parsed_options.ext_opts.learning_mode
        if !ok then
          throw (lit "Invalid argument to --problem_type " ++ parsed_options.ext_opts.learning_mode)
        joiner := joiner.call (.set_learning_mode_config learning_mode true)
      if all.was_supplied "reward_function" then
        let (ok, reward_function) :=
          str_to_reward_function sch parsed_options.ext_opts.reward_function
        if !ok then
          throw (lit "Invalid argument to --problem_type " ++ parsed_options.ext_opts.reward_function)
        joiner := joiner.call (.set_reward_function reward_function true)
      make_unique .binaryParser
      return .binaryParser joiner
  else
    throw (lit "external parser type not recognised")

instance {ε α : Type} [DecidableEq ε] [DecidableEq α] : DecidableEq (Except ε α)
  | .ok a, .ok b => if h : a = b then isTrue (by rw [h]) else isFalse (by intro e; cases e; exact h rfl)
  | .error a, .error b =>
    if h : a = b then isTrue (by rw [h]) else isFalse (by intro e; cases e; exact h rfl)
  | .ok _, .error _ => isFalse (by intro e; cases e)
  | .error _, .ok _ => isFalse (by intro e; cases e)

/-- Outcome of a set-up computation started with nothing constructed: what it
returns or throws, and the objects it constructed, in order. -/
def setup.outcome {α : Type} (m : setup α) : Except std_string α × List constructed :=
  (m.run.run []).run

/-! ## Words of the specification -/

/-- Equality of two byte strings ignoring the case of the letters `A..Z`. -/
def eq_ignore_case (a b : std_string) : Prop := a.map tolower = b.map tolower

instance (a b : std_string) : Decidable (eq_ignore_case a b) :=
  inferInstanceAs (Decidable (a.map tolower = b.map tolower))

/-- The part of a byte string before its first NUL byte; all of it when it holds
no NUL byte. -/
def until_nul (s : std_string) : std_string := s.takeWhile (fun c => c != 0)

/-- The part of a path after its last `'.'`; the whole path when it holds no `'.'`. -/
def after_last_dot (path : std_string) : std_string :=
  (path.reverse.takeWhile (fun c => c != dot)).reverse

/-! ## Expected setter calls -/

/-- The setter calls that the parser branch makes, in order, when it does not throw. -/
def override_calls (sch : schema) (all : vw) (o : parser_options) : List joiner_call :=
  (if all.was_supplied "default_reward" then [.set_default_reward o.default_reward true] else []) ++
  (if all.was_supplied "problem_type" then
    [.set_problem_type_config (str_to_problem_type o.problem_type).2 true] else []) ++
  (if all.was_supplied "learning_mode" then
    [.set_learning_mode_config (str_to_learning_mode sch o.learning_mode).2 true] else []) ++
  (if all.was_supplied "reward_function" then
    [.set_reward_function (str_to_reward_function sch o.reward_function).2 true] else [])

/-! ## Sample inputs -/

/-- A schema whose two range aliases stand for the first enumerator of each
enumeration. -/
def sample_schema : schema := ⟨RewardFunctionType_Earliest, LearningModeType_Online⟩

/-- An option record: the binary parser on, every other flag off, and recognised
values in the three enumeration strings. -/
def sample_options : parser_options :=
  { binary := true, binary_to_json := false, multistep := false, default_reward := ⟨0⟩,
    problem_type := lit "CB", reward_function := lit "median", learning_mode := lit "Online" }

/-- The answer of `was_supplied` when none of the options is on the command line. -/
def none_supplied : String → Bool := fun _ => false

/-- The answer of `was_supplied` when exactly `--problem_type` is on the command line. -/
def only_problem_type : String → Bool := fun name => name == "problem_type"

/-- The fields of `vw` for the data file "data.log" with exactly `--problem_type` on the
command line. -/
def sample_log_run : vw := ⟨lit "data.log", only_problem_type⟩

/-- The fields of `vw` for the data file "joined.dsjson" with none of the override options
on the command line. -/
def sample_dsjson_run : vw := ⟨lit "joined.dsjson", none_supplied⟩

/-- The sample options with `--binary_to_json` also on. -/
def sample_converter_options : input_options :=
  ⟨{ sample_options with binary_to_json := true }⟩

/-- The sample options with `--binary_to_json` and `--multistep` on and values in the
three enumeration strings that no look-up accepts. -/
def sample_converter_bogus_options : input_options :=
  ⟨{ sample_options with
      binary_to_json := true, multistep := true, problem_type := lit "bogus",
      reward_function := lit "bogus", learning_mode := lit "logging-only" }⟩

/-- The sample options with the problem type "bogus", which the look-up rejects. -/
def sample_bogus_options : input_options :=
  ⟨{ sample_options with problem_type := lit "bogus" }⟩

/-- The sample options as they stand: the binary parser alone. -/
def sample_parser_options : input_options := ⟨sample_options⟩

/-- The fields of `vw` for the data file "data.log" with none of the override options on the
command line. -/
def sample_log_run_plain : vw := ⟨lit "data.log", none_supplied⟩

/-! ## Lemmas on the comparison -/

theorem tolower_eq_zero (c : Nat) : tolower c = 0 ↔ c = 0 := by
  unfold tolower
  split <;> omega

theorem until_nul_nil : until_nul [] = [] := rfl

theorem until_nul_cons_zero (s : std_string) : until_nul (0 :: s) = [] := rfl

theorem until_nul_cons (c : Nat) (s : std_string) (h : c ≠ 0) :
    until_nul (c :: s) = c :: until_nul s := by
  simp [until_nul, List.takeWhile_cons, h]

/-- The comparison gives `0` exactly when the two sequences, each read up to its
first NUL, are equal after `tolower`. -/
theorem stricmp_eq_zero_iff (a b : List Nat) :
    _stricmp a b = 0 ↔ eq_ignore_case (until_nul a) (until_nul b) := by
  unfold eq_ignore_case
  induction a generalizing b with
  | nil =>
    cases b with
    | nil => simp [_stricmp]
    | cons y ys =>
      by_cases hy : y = 0
      · subst hy
        simp [_stricmp, until_nul_cons_zero, until_nul_nil, tolower]
      · have hl : tolower y ≠ 0 := fun h => hy ((tolower_eq_zero y).1 h)
        simp only [_stricmp, until_nul_nil, until_nul_cons y ys hy, List.map_nil, List.map_cons]
        constructor
        · intro h
          omega
        · intro h
          cases h
  | cons x xs ih =>
    cases b with
    | nil =>
      by_cases hx : x = 0
      · subst hx
        simp [_stricmp, until_nul_cons_zero, until_nul_nil, tolower]
      · have hl : tolower x ≠ 0 := fun h => hx ((tolower_eq_zero x).1 h)
        simp only [_stricmp, until_nul_nil, until_nul_cons x xs hx, List.map_nil, List.map_cons]
        constructor
        · intro h
          omega
        · intro h
          cases h
    | cons y ys =>
      by_cases hxy : tolower x = tolower y
      · by_cases hx : x = 0
        · subst hx
          have hy : y = 0 := (tolower_eq_zero y).1 hxy.symm
          subst hy
          simp [_stricmp, until_nul_cons_zero]
        · have hy : y ≠ 0 := by
            intro h
            subst h
            exact hx ((tolower_eq_zero x).1 hxy)
          simp only [_stricmp, hxy, ne_eq, not_true_eq_false, if_false, hx,
            until_nul_cons x xs hx, until_nul_cons y ys hy, List.map_cons, ih ys]
          constructor
          · intro h
            rw [h]
          · intro h
            exact (List.cons.inj h).2
      · have hne : (until_nul (x :: xs)).map tolower ≠ (until_nul (y :: ys)).map tolower := by
          by_cases hx : x = 0
          · subst hx
            have hy : y ≠ 0 := by
              intro h
              subst h
              exact hxy rfl
            simp [until_nul_cons_zero, until_nul_cons y ys hy]
          · by_cases hy : y = 0
            · subst hy
              simp [until_nul_cons_zero, until_nul_cons x xs hx]
            · simp [until_nul_cons x xs hx, until_nul_cons y ys hy, hxy]
        simp only [_stricmp, ne_eq, hxy, not_false_eq_true, if_true]
        constructor
        · intro h
          omega
        · intro h
          exact absurd h hne

/-- A table key written in lower case without NUL matches `str` exactly when the
part of `str` before its first NUL is that key, ignoring case. -/
theorem key_matches (key str : std_string) (K : std_string)
    (hK : (until_nul key).map tolower = K) :
    (_stricmp key (c_str str) == 0) = decide ((until_nul str).map tolower = K) := by
  have h := stricmp_eq_zero_iff key str
  unfold eq_ignore_case at h
  rw [hK] at h
  by_cases hz : _stricmp key (c_str str) = 0
  · have h2 := h.1 hz
    simp [hz, h2.symm]
  · have h2 : ¬ K = (until_nul str).map tolower := fun e => hz (h.2 e)
    have h3 : ¬ (until_nul str).map tolower = K := fun e => h2 e.symm
    simp [hz, h3]

/-! ## Lemmas on paths -/

theorem rfind_spec (c : Nat) (s : std_string) :
    match rfind c s with
    | none => c ∉ s
    | some i => ∃ pre ext, s = pre ++ c :: ext ∧ c ∉ ext ∧ pre.length = i := by
  induction s with
  | nil => simp [rfind]
  | cons x xs ih =>
    unfold rfind
    cases h : rfind c xs with
    | some i =>
      rw [h] at ih
      obtain ⟨pre, ext, h1, h2, h3⟩ := ih
      exact ⟨x :: pre, ext, by simp [h1], h2, by simp [h3]⟩
    | none =>
      rw [h] at ih
      by_cases hx : x = c
      · subst hx
        simp only [if_true]
        exact ⟨[], xs, rfl, ih, rfl⟩
      · simp only [hx, if_false]
        intro hmem
        cases hmem with
        | head => exact hx rfl
        | tail _ h' => exact ih h'

theorem rfind_eq_none (c : Nat) (s : std_string) (h : c ∉ s) : rfind c s = none := by
  have hs := rfind_spec c s
  cases hr : rfind c s with
  | none => rfl
  | some i =>
    rw [hr] at hs
    obtain ⟨pre, ext, h1, _, _⟩ := hs
    exact absurd (by rw [h1]; simp) h

theorem split_at_last (c : Nat) (s : std_string) (h : c ∈ s) :
    ∃ pre ext, s = pre ++ c :: ext ∧ c ∉ ext := by
  have hs := rfind_spec c s
  cases hr : rfind c s with
  | none =>
    rw [hr] at hs
    exact absurd h hs
  | some i =>
    rw [hr] at hs
    obtain ⟨pre, ext, h1, h2, _⟩ := hs
    exact ⟨pre, ext, h1, h2⟩

theorem rfind_of_split (c : Nat) (pre ext : std_string) (h : c ∉ ext) :
    rfind c (pre ++ c :: ext) = some pre.length := by
  induction pre with
  | nil => simp [rfind, rfind_eq_none c ext h]
  | cons x xs ih => simp [rfind, ih]

theorem after_last_dot_split (pre ext : std_string) (h : dot ∉ ext) :
    after_last_dot (pre ++ dot :: ext) = ext := by
  unfold after_last_dot
  have h2 : ∀ x ∈ ext.reverse, (x != dot) = true := by
    intro x hx
    have : x ∈ ext := List.mem_reverse.1 hx
    simp only [bne_iff_ne, ne_eq]
    intro e
    subst e
    exact h this
  simp only [List.reverse_append, List.reverse_cons, List.append_assoc, List.singleton_append]
  rw [List.takeWhile_append_of_pos h2]
  simp [List.takeWhile_cons]

theorem after_last_dot_no_dot (path : std_string) (h : dot ∉ path) :
    after_last_dot path = path := by
  unfold after_last_dot
  have h2 : ∀ x ∈ path.reverse, (x != dot) = true := by
    intro x hx
    have : x ∈ path := List.mem_reverse.1 hx
    simp only [bne_iff_ne, ne_eq]
    intro e
    subst e
    exact h this
  rw [List.takeWhile_eq_self_iff.2 h2]
  simp

/-- The two `substr` calls of the converter branch, for a path shorter than `npos`:
the position of the second one is within the path, the second one gives the part
after the last `'.'`. -/
theorem extension_eq (path : std_string) (hlen : path.length < npos) :
    ¬ (path.length < (find_last_of path dot + 1) % 2 ^ 64) ∧
    ((path.drop ((find_last_of path dot + 1) % 2 ^ 64)).take npos) = after_last_dot path := by
  have hs := rfind_spec dot path
  unfold find_last_of
  cases hr : rfind dot path with
  | none =>
    rw [hr] at hs
    have h0 : (npos + 1) % 2 ^ 64 = 0 := by decide
    simp only [Option.getD_none, h0, List.drop_zero]
    refine ⟨by omega, ?_⟩
    rw [after_last_dot_no_dot path hs]
    exact List.take_of_length_le (by omega)
  | some i =>
    rw [hr] at hs
    obtain ⟨pre, ext, h1, h2, h3⟩ := hs
    have hl : path.length = i + 1 + ext.length := by
      rw [h1]
      simp [h3]
      omega
    have hn : npos = 2 ^ 64 - 1 := rfl
    have hi : (i + 1) % 2 ^ 64 = i + 1 := Nat.mod_eq_of_lt (by omega)
    simp only [Option.getD_some, hi]
    refine ⟨by omega, ?_⟩
    have hd : path.drop (i + 1) = ext := by
      rw [h1, ← h3]
      simp
    rw [hd, h1, after_last_dot_split pre ext h2]
    exact List.take_of_length_le (by omega)

/-- The first `substr` call of the converter branch: the prefix before the last
`'.'`, or the whole path when it holds none. -/
theorem name_eq (path : std_string) (hlen : path.length < npos) :
    (∀ pre ext, path = pre ++ dot :: ext → dot ∉ ext →
      path.take (find_last_of path dot) = pre) ∧
    (dot ∉ path → path.take (find_last_of path dot) = path) := by
  unfold find_last_of
  constructor
  · intro pre ext h1 h2
    rw [h1, rfind_of_split dot pre ext h2]
    simp
  · intro h
    rw [rfind_eq_none dot path h]
    exact List.take_of_length_le (by simp only [Option.getD_none]; omega)

/-! ## Closed forms of the two branches -/

/-- Outcome of the converter branch for a path shorter than `npos`. -/
theorem converter_outcome (sch : schema) (all : vw) (po : input_options)
    (hb : po.ext_opts.binary = true) (hj : po.ext_opts.binary_to_json = true)
    (hlen : all.data_filename.length < npos) :
    (getExternalParser sch all po).outcome =
      if after_last_dot all.data_filename = lit "dsjson" then
        (.error (lit "input file for --binary_to_json option should be binary format, file provided: "
          ++ all.data_filename), [])
      else
        (.ok (.binary_json_converter
          ⟨.example_joiner_json true
            (all.data_filename.take (find_last_of all.data_filename dot) ++ lit ".dsjson"), []⟩),
         [.joiner (.example_joiner_json true
            (all.data_filename.take (find_last_of all.data_filename dot) ++ lit ".dsjson")),
          .binary_json_converter]) := by
  obtain ⟨h1, h2⟩ := extension_eq all.data_filename hlen
  have h3 : ((2 : Nat) ^ 64) = 18446744073709551616 := by norm_num
  rw [h3] at h1 h2
  unfold getExternalParser setup.outcome
  simp only [hb, hj, substr, make_unique]
  simp [h1, h2]
  by_cases he : after_last_dot all.data_filename = lit "dsjson"
  · simp only [he, if_true]
    rfl
  · simp only [he, if_false]
    rfl

theorem parser_outcome (sch : schema) (all : vw) (po : input_options)
    (hb : po.ext_opts.binary = true) (hj : po.ext_opts.binary_to_json = false)
    (hp : all.was_supplied "problem_type" = true →
      (str_to_problem_type po.ext_opts.problem_type).1 = true)
    (hl : all.was_supplied "learning_mode" = true →
      (str_to_learning_mode sch po.ext_opts.learning_mode).1 = true)
    (hr : all.was_supplied "reward_function" = true →
      (str_to_reward_function sch po.ext_opts.reward_function).1 = true) :
    (getExternalParser sch all po).outcome =
      (.ok (.binaryParser
        ⟨if po.ext_opts.multistep then .multistep_example_joiner else .example_joiner,
         override_calls sch all po.ext_opts⟩),
       [.joiner .example_joiner] ++
       (if po.ext_opts.multistep then [.joiner .multistep_example_joiner] else []) ++
       [.binaryParser]) := by
  unfold getExternalParser setup.outcome override_calls
  cases hpt : str_to_problem_type po.ext_opts.problem_type with
  | mk ok1 t1 =>
  cases hlm : str_to_learning_mode sch po.ext_opts.learning_mode with
  | mk ok2 t2 =>
  cases hrf : str_to_reward_function sch po.ext_opts.reward_function with
  | mk ok3 t3 =>
  rw [hpt] at hp
  rw [hlm] at hl
  rw [hrf] at hr
  simp only at hp hl hr
  cases hm : po.ext_opts.multistep <;>
  cases h1 : all.was_supplied "default_reward" <;>
  cases h2 : all.was_supplied "problem_type" <;>
  cases h3 : all.was_supplied "learning_mode" <;>
  cases h4 : all.was_supplied "reward_function" <;>
  simp only [h2, h3, h4, true_implies] at hp hl hr <;>
  simp [hb, hj, make_unique, hp, hl, hr, i_joiner.call] <;>
  rfl

/-- The objects that the parser branch has constructed when it reaches the overrides. -/
theorem joiners_are_not_parsers (m : Bool) :
    constructed.binaryParser ∉
      ([.joiner .example_joiner] ++ (if m then [.joiner .multistep_example_joiner] else []) :
        List constructed) ∧
    constructed.binary_json_converter ∉
      ([.joiner .example_joiner] ++ (if m then [.joiner .multistep_example_joiner] else []) :
        List constructed) := by
  cases m <;> decide

/-- Outcome of the parser branch when `--problem_type` has a value that is rejected. -/
theorem parser_outcome_bad_problem_type (sch : schema) (all : vw) (po : input_options)
    (hb : po.ext_opts.binary = true) (hj : po.ext_opts.binary_to_json = false)
    (h2 : all.was_supplied "problem_type" = true)
    (ho : (str_to_problem_type po.ext_opts.problem_type).1 = false) :
    (getExternalParser sch all po).outcome =
      (.error (lit "Invalid argument to --problem_type " ++ po.ext_opts.problem_type),
       [.joiner .example_joiner] ++
       (if po.ext_opts.multistep then [.joiner .multistep_example_joiner] else [])) := by
  unfold getExternalParser setup.outcome
  cases hpt : str_to_problem_type po.ext_opts.problem_type with
  | mk ok1 t1 =>
  rw [hpt] at ho
  simp only at ho
  subst ho
  cases hm : po.ext_opts.multistep <;>
  cases h1 : all.was_supplied "default_reward" <;>
  simp [hb, hj, h2, make_unique, i_joiner.call] <;>
  rfl

/-- Outcome of the parser branch when `--problem_type` passes and `--learning_mode` has a
value that is rejected. -/
theorem parser_outcome_bad_learning_mode (sch : schema) (all : vw) (po : input_options)
    (hb : po.ext_opts.binary = true) (hj : po.ext_opts.binary_to_json = false)
    (hp : all.was_supplied "problem_type" = true →
      (str_to_problem_type po.ext_opts.problem_type).1 = true)
    (h3 : all.was_supplied "learning_mode" = true)
    (ho : (str_to_learning_mode sch po.ext_opts.learning_mode).1 = false) :
    (getExternalParser sch all po).outcome =
      (.error (lit "Invalid argument to --problem_type " ++ po.ext_opts.learning_mode),
       [.joiner .example_joiner] ++
       (if po.ext_opts.multistep then [.joiner .multistep_example_joiner] else [])) := by
  unfold getExternalParser setup.outcome
  cases hpt : str_to_problem_type po.ext_opts.problem_type with
  | mk ok1 t1 =>
  cases hlm : str_to_learning_mode sch po.ext_opts.learning_mode with
  | mk ok2 t2 =>
  rw [hpt] at hp
  rw [hlm] at ho
  simp only at hp ho
  subst ho
  cases hm : po.ext_opts.multistep <;>
  cases h1 : all.was_supplied "default_reward" <;>
  cases h2 : all.was_supplied "problem_type" <;>
  simp only [h2, true_implies] at hp <;>
  simp [hb, hj, h3, hp, make_unique, i_joiner.call] <;>
  rfl

/-- Outcome of the parser branch when `--problem_type` and `--learning_mode` pass and
`--reward_function` has a value that is rejected. -/
theorem parser_outcome_bad_reward_function (sch : schema) (all : vw) (po : input_options)
    (hb : po.ext_opts.binary = true) (hj : po.ext_opts.binary_to_json = false)
    (hp : all.was_supplied "problem_type" = true →
      (str_to_problem_type po.ext_opts.problem_type).1 = true)
    (hl : all.was_supplied "learning_mode" = true →
      (str_to_learning_mode sch po.ext_opts.learning_mode).1 = true)
    (h4 : all.was_supplied "reward_function" = true)
    (ho : (str_to_reward_function sch po.ext_opts.reward_function).1 = false) :
    (getExternalParser sch all po).outcome =
      (.error (lit "Invalid argument to --problem_type " ++ po.ext_opts.reward_function),
       [.joiner .example_joiner] ++
       (if po.ext_opts.multistep then [.joiner .multistep_example_joiner] else [])) := by
  unfold getExternalParser setup.outcome
  cases hpt : str_to_problem_type po.ext_opts.problem_type with
  | mk ok1 t1 =>
  cases hlm : str_to_learning_mode sch po.ext_opts.learning_mode with
  | mk ok2 t2 =>
  cases hrf : str_to_reward_function sch po.ext_opts.reward_function with
  | mk ok3 t3 =>
  rw [hpt] at hp
  rw [hlm] at hl
  rw [hrf] at ho
  simp only at hp hl ho
  subst ho
  cases hm : po.ext_opts.multistep <;>
  cases h1 : all.was_supplied "default_reward" <;>
  cases h2 : all.was_supplied "problem_type" <;>
  cases h3 : all.was_supplied "learning_mode" <;>
  simp only [h2, h3, true_implies] at hp hl <;>
  simp [hb, hj, h4, hp, hl, make_unique, i_joiner.call] <;>
  rfl

/-! ## Claims on the three look-ups -/

/-- A string that holds no NUL byte is all before its first NUL byte. -/
theorem until_nul_eq_self (s : std_string) (h : 0 ∉ s) : until_nul s = s := by
  unfold until_nul
  apply List.takeWhile_eq_self_iff.2
  intro x hx
  simp only [bne_iff_ne, ne_eq]
  intro e
  subst e
  exact h hx

/-- C3, as the claim states it, fails at the four bytes `c`, `b`, NUL, `x`: the function
returns true and leaves `ProblemType_CB`, and the string equals none of the four names,
ignoring letter case. -/
theorem str_to_problem_type_nul_counterexample :
    str_to_problem_type (lit "cb" ++ [0] ++ lit "x") = (true, ProblemType_CB) ∧
    ¬ (eq_ignore_case (lit "cb" ++ [0] ++ lit "x") (lit "CB") ∨
       eq_ignore_case (lit "cb" ++ [0] ++ lit "x") (lit "CCB") ∨
       eq_ignore_case (lit "cb" ++ [0] ++ lit "x") (lit "SLATES") ∨
       eq_ignore_case (lit "cb" ++ [0] ++ lit "x") (lit "CA")) := by
  decide

/-- C3, as amended. For every string `str`, `str_to_problem_type` returns true exactly when the part
of `str` before its first NUL byte (all of `str` when it holds none) equals, ignoring letter
case, one of "CB", "CCB", "SLATES", "CA"; it then leaves in `type` the like-named enumerator,
and when it returns false it leaves `ProblemType_UNKNOWN`. -/
theorem str_to_problem_type_accepts_iff (str : std_string) :
    (((str_to_problem_type str).1 = true) ↔
      (eq_ignore_case (until_nul str) (lit "CB") ∨
       eq_ignore_case (until_nul str) (lit "CCB") ∨
       eq_ignore_case (until_nul str) (lit "SLATES") ∨
       eq_ignore_case (until_nul str) (lit "CA"))) ∧
    (eq_ignore_case (until_nul str) (lit "CB") →
      str_to_problem_type str = (true, ProblemType_CB)) ∧
    (eq_ignore_case (until_nul str) (lit "CCB") →
      str_to_problem_type str = (true, ProblemType_CCB)) ∧
    (eq_ignore_case (until_nul str) (lit "SLATES") →
      str_to_problem_type str = (true, ProblemType_SLATES)) ∧
    (eq_ignore_case (until_nul str) (lit "CA") →
      str_to_problem_type str = (true, ProblemType_CA)) ∧
    ((str_to_problem_type str).1 = false →
      str_to_problem_type str = (false, ProblemType_UNKNOWN)) := by
  unfold str_to_problem_type problem_types eq_ignore_case
  simp only [List.find?_cons, List.find?_nil,
    key_matches (lit "cb") str ((lit "CB").map tolower) (by decide),
    key_matches (lit "ccb") str ((lit "CCB").map tolower) (by decide),
    key_matches (lit "slates") str ((lit "SLATES").map tolower) (by decide),
    key_matches (lit "ca") str ((lit "CA").map tolower) (by decide)]
  generalize (until_nul str).map tolower = L
  have d0_1 : (lit "CB").map tolower ≠ (lit "CCB").map tolower := by decide
  have d0_2 : (lit "CB").map tolower ≠ (lit "SLATES").map tolower := by decide
  have d0_3 : (lit "CB").map tolower ≠ (lit "CA").map tolower := by decide
  have d1_2 : (lit "CCB").map tolower ≠ (lit "SLATES").map tolower := by decide
  have d1_3 : (lit "CCB").map tolower ≠ (lit "CA").map tolower := by decide
  have d2_3 : (lit "SLATES").map tolower ≠ (lit "CA").map tolower := by decide
  generalize (lit "CB").map tolower = k0 at *
  generalize (lit "CCB").map tolower = k1 at *
  generalize (lit "SLATES").map tolower = k2 at *
  generalize (lit "CA").map tolower = k3 at *
  by_cases h0 : L = k0
  · subst h0
    simp [d0_1, d0_2, d0_3]
  · by_cases h1 : L = k1
    · subst h1
      simp [h0, d1_2, d1_3]
    · by_cases h2 : L = k2
      · subst h2
        simp [h0, h1, d2_3]
      · by_cases h3 : L = k3
        · subst h3
          simp [h0, h1, h2]
        · simp [h0, h1, h2, h3]

/-- C4, as the claim states it, fails at the five bytes `s`, `u`, `m`, NUL, `x`: the function
returns true and leaves `RewardFunctionType_Sum`, and the string equals none of the six names,
ignoring letter case. -/
theorem str_to_reward_function_nul_counterexample :
    str_to_reward_function sample_schema (lit "sum" ++ [0] ++ lit "x") =
      (true, RewardFunctionType_Sum) ∧
    ¬ (eq_ignore_case (lit "sum" ++ [0] ++ lit "x") (lit "earliest") ∨
       eq_ignore_case (lit "sum" ++ [0] ++ lit "x") (lit "average") ∨
       eq_ignore_case (lit "sum" ++ [0] ++ lit "x") (lit "median") ∨
       eq_ignore_case (lit "sum" ++ [0] ++ lit "x") (lit "sum") ∨
       eq_ignore_case (lit "sum" ++ [0] ++ lit "x") (lit "min") ∨
       eq_ignore_case (lit "sum" ++ [0] ++ lit "x") (lit "max")) := by
  decide

/-- C4, as amended. For every string `str`, `str_to_reward_function` returns true exactly when the
part of `str` before its first NUL byte (all of `str` when it holds none) equals, ignoring
letter case, one of "earliest", "average", "median", "sum", "min", "max"; it then leaves in
`reward_function` the like-named enumerator, one for each name, and when it returns false it
leaves `RewardFunctionType_MIN`. -/
theorem str_to_reward_function_accepts_iff (sch : schema) (str : std_string) :
    (((str_to_reward_function sch str).1 = true) ↔
      (eq_ignore_case (until_nul str) (lit "earliest") ∨
       eq_ignore_case (until_nul str) (lit "average") ∨
       eq_ignore_case (until_nul str) (lit "median") ∨
       eq_ignore_case (until_nul str) (lit "sum") ∨
       eq_ignore_case (until_nul str) (lit "min") ∨
       eq_ignore_case (until_nul str) (lit "max"))) ∧
    (eq_ignore_case (until_nul str) (lit "earliest") →
      str_to_reward_function sch str = (true, RewardFunctionType_Earliest)) ∧
    (eq_ignore_case (until_nul str) (lit "average") →
      str_to_reward_function sch str = (true, RewardFunctionType_Average)) ∧
    (eq_ignore_case (until_nul str) (lit "median") →
      str_to_reward_function sch str = (true, RewardFunctionType_Median)) ∧
    (eq_ignore_case (until_nul str) (lit "sum") →
      str_to_reward_function sch str = (true, RewardFunctionType_Sum)) ∧
    (eq_ignore_case (until_nul str) (lit "min") →
      str_to_reward_function sch str = (true, RewardFunctionType_Min)) ∧
    (eq_ignore_case (until_nul str) (lit "max") →
      str_to_reward_function sch str = (true, RewardFunctionType_Max)) ∧
    ((str_to_reward_function sch str).1 = false →
      str_to_reward_function sch str = (false, sch.RewardFunctionType_MIN)) := by
  unfold str_to_reward_function reward_functions eq_ignore_case
  simp only [List.find?_cons, List.find?_nil,
    key_matches (lit "earliest") str ((lit "earliest").map tolower) (by decide),
    key_matches (lit "average") str ((lit "average").map tolower) (by decide),
    key_matches (lit "median") str ((lit "median").map tolower) (by decide),
    key_matches (lit "sum") str ((lit "sum").map tolower) (by decide),
    key_matches (lit "min") str ((lit "min").map tolower) (by decide),
    key_matches (lit "max") str ((lit "max").map tolower) (by decide)]
  generalize (until_nul str).map tolower = L
  have d0_1 : (lit "earliest").map tolower ≠ (lit "average").map tolower := by decide
  have d0_2 : (lit "earliest").map tolower ≠ (lit "median").map tolower := by decide
  have d0_3 : (lit "earliest").map tolower ≠ (lit "sum").map tolower := by decide
  have d0_4 : (lit "earliest").map tolower ≠ (lit "min").map tolower := by decide
  have d0_5 : (lit "earliest").map tolower ≠ (lit "max").map tolower := by decide
  have d1_2 : (lit "average").map tolower ≠ (lit "median").map tolower := by decide
  have d1_3 : (lit "average").map tolower ≠ (lit "sum").map tolower := by decide
  have d1_4 : (lit "average").map tolower ≠ (lit "min").map tolower := by decide
  have d1_5 : (lit "average").map tolower ≠ (lit "max").map tolower := by decide
  have d2_3 : (lit "median").map tolower ≠ (lit "sum").map tolower := by decide
  have d2_4 : (lit "median").map tolower ≠ (lit "min").map tolower := by decide
  have d2_5 : (lit "median").map tolower ≠ (lit "max").map tolower := by decide
  have d3_4 : (lit "sum").map tolower ≠ (lit "min").map tolower := by decide
  have d3_5 : (lit "sum").map tolower ≠ (lit "max").map tolower := by decide
  have d4_5 : (lit "min").map tolower ≠ (lit "max").map tolower := by decide
  generalize (lit "earliest").map tolower = k0 at *
  generalize (lit "average").map tolower = k1 at *
  generalize (lit "median").map tolower = k2 at *
  generalize (lit "sum").map tolower = k3 at *
  generalize (lit "min").map tolower = k4 at *
  generalize (lit "max").map tolower = k5 at *
  by_cases h0 : L = k0
  · subst h0
    simp [d0_1, d0_2, d0_3, d0_4, d0_5]
  · by_cases h1 : L = k1
    · subst h1
      simp [h0, d1_2, d1_3, d1_4, d1_5]
    · by_cases h2 : L = k2
      · subst h2
        simp [h0, h1, d2_3, d2_4, d2_5]
      · by_cases h3 : L = k3
        · subst h3
          simp [h0, h1, h2, d3_4, d3_5]
        · by_cases h4 : L = k4
          · subst h4
            simp [h0, h1, h2, h3, d4_5]
          · by_cases h5 : L = k5
            · subst h5
              simp [h0, h1, h2, h3, h4]
            · simp [h0, h1, h2, h3, h4, h5]

/-- C5, as the claim states it, fails at "logging-only": the function returns false there,
whatever `LearningModeType_MIN` stands for, and so does not leave
`LearningModeType_LoggingOnly` with a true flag. -/
theorem str_to_learning_mode_logging_only_counterexample :
    (str_to_learning_mode sample_schema (lit "logging-only")).1 = false ∧
    ¬ ∃ sch, str_to_learning_mode sch (lit "logging-only") = (true, LearningModeType_LoggingOnly) := by
  refine ⟨by decide, ?_⟩
  rintro ⟨sch, h⟩
  have h1 : (str_to_learning_mode sch (lit "logging-only")).1 = false := rfl
  rw [h] at h1
  cases h1

/-- C5, as amended. The learning-mode value accepts each of "online", "apprentice" and
"loggingonly": for each of them `str_to_learning_mode` returns true and leaves in `mode`
`LearningModeType_Online`, `LearningModeType_Apprentice` and `LearningModeType_LoggingOnly`
respectively. -/
theorem str_to_learning_mode_accepts_three (sch : schema) :
    str_to_learning_mode sch (lit "online") = (true, LearningModeType_Online) ∧
    str_to_learning_mode sch (lit "apprentice") = (true, LearningModeType_Apprentice) ∧
    str_to_learning_mode sch (lit "loggingonly") = (true, LearningModeType_LoggingOnly) :=
  ⟨rfl, rfl, rfl⟩

/-- C6, as the claim states it, fails at the eight bytes `o`, `n`, `l`, `i`, `n`, `e`, NUL,
`x`: the function returns true and leaves `LearningModeType_Online`, and the string equals
none of the three names, ignoring letter case. -/
theorem str_to_learning_mode_nul_counterexample :
    str_to_learning_mode sample_schema (lit "online" ++ [0] ++ lit "x") =
      (true, LearningModeType_Online) ∧
    ¬ (eq_ignore_case (lit "online" ++ [0] ++ lit "x") (lit "Online") ∨
       eq_ignore_case (lit "online" ++ [0] ++ lit "x") (lit "Apprentice") ∨
       eq_ignore_case (lit "online" ++ [0] ++ lit "x") (lit "LoggingOnly")) := by
  decide

/-- C6, as amended. For every string `str`, `str_to_learning_mode` returns true exactly when the
part of `str` before its first NUL byte (all of `str` when it holds none) equals, ignoring
letter case, one of "Online", "Apprentice", "LoggingOnly"; it then leaves in `mode` the
like-named enumerator, and when it returns false it leaves `LearningModeType_MIN`. -/
theorem str_to_learning_mode_accepts_iff (sch : schema) (str : std_string) :
    (((str_to_learning_mode sch str).1 = true) ↔
      (eq_ignore_case (until_nul str) (lit "Online") ∨
       eq_ignore_case (until_nul str) (lit "Apprentice") ∨
       eq_ignore_case (until_nul str) (lit "LoggingOnly"))) ∧
    (eq_ignore_case (until_nul str) (lit "Online") →
      str_to_learning_mode sch str = (true, LearningModeType_Online)) ∧
    (eq_ignore_case (until_nul str) (lit "Apprentice") →
      str_to_learning_mode sch str = (true, LearningModeType_Apprentice)) ∧
    (eq_ignore_case (until_nul str) (lit "LoggingOnly") →
      str_to_learning_mode sch str = (true, LearningModeType_LoggingOnly)) ∧
    ((str_to_learning_mode sch str).1 = false →
      str_to_learning_mode sch str = (false, sch.LearningModeType_MIN)) := by
  unfold str_to_learning_mode learning_modes eq_ignore_case
  simp only [List.find?_cons, List.find?_nil,
    key_matches (lit "online") str ((lit "Online").map tolower) (by decide),
    key_matches (lit "apprentice") str ((lit "Apprentice").map tolower) (by decide),
    key_matches (lit "loggingonly") str ((lit "LoggingOnly").map tolower) (by decide)]
  generalize (until_nul str).map tolower = L
  have d0_1 : (lit "Online").map tolower ≠ (lit "Apprentice").map tolower := by decide
  have d0_2 : (lit "Online").map tolower ≠ (lit "LoggingOnly").map tolower := by decide
  have d1_2 : (lit "Apprentice").map tolower ≠ (lit "LoggingOnly").map tolower := by decide
  generalize (lit "Online").map tolower = k0 at *
  generalize (lit "Apprentice").map tolower = k1 at *
  generalize (lit "LoggingOnly").map tolower = k2 at *
  by_cases h0 : L = k0
  · subst h0
    simp [d0_1, d0_2]
  · by_cases h1 : L = k1
    · subst h1
      simp [h0, d1_2]
    · by_cases h2 : L = k2
      · subst h2
        simp [h0, h1]
      · simp [h0, h1, h2]

/-! ## Claims on `parser::get_external_parser` -/

/-- C1, as the claim states it, fails in converter mode: with `--binary_parser`,
`--binary_to_json`, the data file "data.log" and `--problem_type bogus`, a value that
`str_to_problem_type` rejects and that equals none of the four names, the function returns a
converter and throws nothing. -/
theorem converter_ignores_unrecognised_counterexample :
    only_problem_type "problem_type" = true ∧
    str_to_problem_type (lit "bogus") = (false, ProblemType_UNKNOWN) ∧
    ¬ (eq_ignore_case (lit "bogus") (lit "CB") ∨ eq_ignore_case (lit "bogus") (lit "CCB") ∨
       eq_ignore_case (lit "bogus") (lit "SLATES") ∨ eq_ignore_case (lit "bogus") (lit "CA")) ∧
    sample_converter_bogus_options.ext_opts.binary = true ∧
    sample_converter_bogus_options.ext_opts.problem_type = lit "bogus" ∧
    (getExternalParser sample_schema sample_log_run sample_converter_bogus_options).outcome =
      (.ok (.binary_json_converter ⟨.example_joiner_json true (lit "data.dsjson"), []⟩),
       [.joiner (.example_joiner_json true (lit "data.dsjson")), .binary_json_converter]) := by
  decide

/-- C1, as amended. For every option set with the binary parser enabled and `binary_to_json`
not set, in which `problem_type`, `learning_mode` or `reward_function` was supplied with a
string that its look-up rejects, `parser::get_external_parser` throws an error and returns no
parser: no parser object is among those it constructed. -/
theorem unrecognised_enum_is_fatal (sch : schema) (all : vw) (po : input_options)
    (hb : po.ext_opts.binary = true) (hj : po.ext_opts.binary_to_json = false)
    (h : (all.was_supplied "problem_type" = true ∧
            (str_to_problem_type po.ext_opts.problem_type).1 = false) ∨
         (all.was_supplied "learning_mode" = true ∧
            (str_to_learning_mode sch po.ext_opts.learning_mode).1 = false) ∨
         (all.was_supplied "reward_function" = true ∧
            (str_to_reward_function sch po.ext_opts.reward_function).1 = false)) :
    (∃ msg, (getExternalParser sch all po).outcome.1 = .error msg) ∧
    constructed.binaryParser ∉ (getExternalParser sch all po).outcome.2 ∧
    constructed.binary_json_converter ∉ (getExternalParser sch all po).outcome.2 := by
  by_cases hp : all.was_supplied "problem_type" = true ∧
      (str_to_problem_type po.ext_opts.problem_type).1 = false
  · rw [parser_outcome_bad_problem_type sch all po hb hj hp.1 hp.2]
    exact ⟨⟨_, rfl⟩, joiners_are_not_parsers _⟩
  · have hp2 : all.was_supplied "problem_type" = true →
        (str_to_problem_type po.ext_opts.problem_type).1 = true := by
      intro hs
      cases hv : (str_to_problem_type po.ext_opts.problem_type).1
      · exact absurd ⟨hs, hv⟩ hp
      · rfl
    by_cases hl : all.was_supplied "learning_mode" = true ∧
        (str_to_learning_mode sch po.ext_opts.learning_mode).1 = false
    · rw [parser_outcome_bad_learning_mode sch all po hb hj hp2 hl.1 hl.2]
      exact ⟨⟨_, rfl⟩, joiners_are_not_parsers _⟩
    · have hl2 : all.was_supplied "learning_mode" = true →
          (str_to_learning_mode sch po.ext_opts.learning_mode).1 = true := by
        intro hs
        cases hv : (str_to_learning_mode sch po.ext_opts.learning_mode).1
        · exact absurd ⟨hs, hv⟩ hl
        · rfl
      have hr : all.was_supplied "reward_function" = true ∧
          (str_to_reward_function sch po.ext_opts.reward_function).1 = false := by
        rcases h with h | h | h
        · exact absurd h hp
        · exact absurd h hl
        · exact h
      rw [parser_outcome_bad_reward_function sch all po hb hj hp2 hl2 hr.1 hr.2]
      exact ⟨⟨_, rfl⟩, joiners_are_not_parsers _⟩

/-- Witness for C1 as amended: `--binary_parser --problem_type bogus` on the data file
"data.log". -/
theorem unrecognised_enum_is_fatal_witness :
    sample_bogus_options.ext_opts.binary = true ∧
    sample_bogus_options.ext_opts.binary_to_json = false ∧
    (sample_log_run.was_supplied "problem_type" = true ∧
      (str_to_problem_type sample_bogus_options.ext_opts.problem_type).1 = false) ∧
    (∃ msg, (getExternalParser sample_schema sample_log_run sample_bogus_options).outcome.1 =
      .error msg) ∧
    constructed.binaryParser ∉
      (getExternalParser sample_schema sample_log_run sample_bogus_options).outcome.2 ∧
    constructed.binary_json_converter ∉
      (getExternalParser sample_schema sample_log_run sample_bogus_options).outcome.2 :=
  ⟨rfl, rfl, ⟨by decide, by decide⟩,
    unrecognised_enum_is_fatal sample_schema sample_log_run sample_bogus_options rfl rfl
      (Or.inl ⟨by decide, by decide⟩)⟩

/-- C2. With `binary` and `binary_to_json` both set and a data file path of fewer than `npos`
bytes, `parser::get_external_parser` throws exactly when the part of the path after its last
`'.'` (the whole path when it holds no `'.'`) is "dsjson"; the error then ends in the path and
nothing has been constructed; for every other path it returns a `binary_json_converter`. -/
theorem converter_rejects_dsjson (sch : schema) (all : vw) (po : input_options)
    (hb : po.ext_opts.binary = true) (hj : po.ext_opts.binary_to_json = true)
    (hlen : all.data_filename.length < npos) :
    ((∃ msg, (getExternalParser sch all po).outcome.1 = .error msg) ↔
      after_last_dot all.data_filename = lit "dsjson") ∧
    (after_last_dot all.data_filename = lit "dsjson" →
      (getExternalParser sch all po).outcome =
        (.error (lit "input file for --binary_to_json option should be binary format, file provided: "
          ++ all.data_filename), [])) ∧
    (after_last_dot all.data_filename ≠ lit "dsjson" →
      ∃ joiner, (getExternalParser sch all po).outcome.1 = .ok (.binary_json_converter joiner)) := by
  rw [converter_outcome sch all po hb hj hlen]
  by_cases he : after_last_dot all.data_filename = lit "dsjson"
  · simp [he]
  · simp [he]

/-- Witness for C2: `--binary_parser --binary_to_json` on the data file "joined.dsjson". -/
theorem converter_rejects_dsjson_witness :
    sample_converter_options.ext_opts.binary = true ∧
    sample_converter_options.ext_opts.binary_to_json = true ∧
    sample_dsjson_run.data_filename.length < npos ∧
    ((∃ msg, (getExternalParser sample_schema sample_dsjson_run
        sample_converter_options).outcome.1 = .error msg) ↔
      after_last_dot sample_dsjson_run.data_filename = lit "dsjson") ∧
    (after_last_dot sample_dsjson_run.data_filename = lit "dsjson" →
      (getExternalParser sample_schema sample_dsjson_run sample_converter_options).outcome =
        (.error (lit "input file for --binary_to_json option should be binary format, file provided: "
          ++ sample_dsjson_run.data_filename), [])) ∧
    (after_last_dot sample_dsjson_run.data_filename ≠ lit "dsjson" →
      ∃ joiner, (getExternalParser sample_schema sample_dsjson_run
        sample_converter_options).outcome.1 = .ok (.binary_json_converter joiner)) :=
  ⟨rfl, rfl, by decide,
    converter_rejects_dsjson sample_schema sample_dsjson_run sample_converter_options rfl rfl
      (by decide)⟩

/-- C7. With `binary` set, `binary_to_json` unset and every supplied enumeration string
accepted by its look-up, `parser::get_external_parser` returns a `binary_parser` whose joiner
is a `multistep_example_joiner` if the multistep flag is on and an `example_joiner` otherwise;
a setter has been called on that joiner exactly when its option was supplied, with the parsed
value and the flag true, and no other call has been made on it. -/
theorem binary_parser_overrides (sch : schema) (all : vw) (po : input_options)
    (hb : po.ext_opts.binary = true) (hj : po.ext_opts.binary_to_json = false)
    (hp : all.was_supplied "problem_type" = true →
      (str_to_problem_type po.ext_opts.problem_type).1 = true)
    (hl : all.was_supplied "learning_mode" = true →
      (str_to_learning_mode sch po.ext_opts.learning_mode).1 = true)
    (hr : all.was_supplied "reward_function" = true →
      (str_to_reward_function sch po.ext_opts.reward_function).1 = true) :
    ∃ joiner, (getExternalParser sch all po).outcome.1 = .ok (.binaryParser joiner) ∧
      joiner.ctor =
        (if po.ext_opts.multistep then .multistep_example_joiner else .example_joiner) ∧
      joiner.calls = override_calls sch all po.ext_opts ∧
      ∀ c, c ∈ joiner.calls ↔
        (all.was_supplied "default_reward" = true ∧
          c = .set_default_reward po.ext_opts.default_reward true) ∨
        (all.was_supplied "problem_type" = true ∧
          c = .set_problem_type_config (str_to_problem_type po.ext_opts.problem_type).2 true) ∨
        (all.was_supplied "learning_mode" = true ∧
          c = .set_learning_mode_config
            (str_to_learning_mode sch po.ext_opts.learning_mode).2 true) ∨
        (all.was_supplied "reward_function" = true ∧
          c = .set_reward_function
            (str_to_reward_function sch po.ext_opts.reward_function).2 true) := by
  rw [parser_outcome sch all po hb hj hp hl hr]
  refine ⟨_, rfl, rfl, rfl, ?_⟩
  intro c
  unfold override_calls
  cases all.was_supplied "default_reward" <;>
  cases all.was_supplied "problem_type" <;>
  cases all.was_supplied "learning_mode" <;>
  cases all.was_supplied "reward_function" <;>
  simp

/-- Witness for C7: `--binary_parser --problem_type CB` on the data file "data.log". -/
theorem binary_parser_overrides_witness :
    sample_parser_options.ext_opts.binary = true ∧
    sample_parser_options.ext_opts.binary_to_json = false ∧
    (sample_log_run.was_supplied "problem_type" = true →
      (str_to_problem_type sample_parser_options.ext_opts.problem_type).1 = true) ∧
    (sample_log_run.was_supplied "learning_mode" = true →
      (str_to_learning_mode sample_schema sample_parser_options.ext_opts.learning_mode).1 = true) ∧
    (sample_log_run.was_supplied "reward_function" = true →
      (str_to_reward_function sample_schema
        sample_parser_options.ext_opts.reward_function).1 = true) ∧
    ∃ joiner, (getExternalParser sample_schema sample_log_run sample_parser_options).outcome.1 =
        .ok (.binaryParser joiner) ∧
      joiner.ctor =
        (if sample_parser_options.ext_opts.multistep then .multistep_example_joiner
          else .example_joiner) ∧
      joiner.calls = override_calls sample_schema sample_log_run sample_parser_options.ext_opts ∧
      ∀ c, c ∈ joiner.calls ↔
        (sample_log_run.was_supplied "default_reward" = true ∧
          c = .set_default_reward sample_parser_options.ext_opts.default_reward true) ∨
        (sample_log_run.was_supplied "problem_type" = true ∧
          c = .set_problem_type_config
            (str_to_problem_type sample_parser_options.ext_opts.problem_type).2 true) ∨
        (sample_log_run.was_supplied "learning_mode" = true ∧
          c = .set_learning_mode_config
            (str_to_learning_mode sample_schema
              sample_parser_options.ext_opts.learning_mode).2 true) ∨
        (sample_log_run.was_supplied "reward_function" = true ∧
          c = .set_reward_function
            (str_to_reward_function sample_schema
              sample_parser_options.ext_opts.reward_function).2 true) :=
  ⟨rfl, rfl, by decide, by decide, by decide,
    binary_parser_overrides sample_schema sample_log_run sample_parser_options rfl rfl
      (by decide) (by decide) (by decide)⟩

/-- C8. With `binary` and `binary_to_json` both set, two calls of
`parser::get_external_parser` on the same data file path have the same outcome, whatever
`multistep`, `default_reward`, `problem_type`, `learning_mode` and `reward_function` are in
each and whichever of them were supplied: both throw, or both return a `binary_json_converter`
that wraps an `example_joiner` on which no setter has been called. -/
theorem converter_depends_on_path_only (sch : schema) (all1 all2 : vw) (po1 po2 : input_options)
    (hb1 : po1.ext_opts.binary = true) (hj1 : po1.ext_opts.binary_to_json = true)
    (hb2 : po2.ext_opts.binary = true) (hj2 : po2.ext_opts.binary_to_json = true)
    (hpath : all1.data_filename = all2.data_filename) :
    (getExternalParser sch all1 po1).outcome = (getExternalParser sch all2 po2).outcome ∧
    ((∃ msg, (getExternalParser sch all1 po1).outcome.1 = .error msg) ∨
     (∃ outfile_name, (getExternalParser sch all1 po1).outcome.1 =
        .ok (.binary_json_converter ⟨.example_joiner_json true outfile_name, []⟩))) := by
  constructor
  · unfold getExternalParser setup.outcome
    simp only [hb1, hj1, hb2, hj2, hpath, ↓reduceIte]
  · unfold getExternalParser setup.outcome
    by_cases h1 : all1.data_filename.length <
        (find_last_of all1.data_filename dot + 1) % 18446744073709551616
    · left
      simp [hb1, hj1, substr, make_unique, h1]
      exact ⟨_, rfl⟩
    · by_cases h2 : List.take npos (List.drop
          ((find_last_of all1.data_filename dot + 1) % 18446744073709551616)
          all1.data_filename) = lit "dsjson"
      · left
        simp [hb1, hj1, substr, make_unique, h1, h2]
        exact ⟨_, rfl⟩
      · right
        simp [hb1, hj1, substr, make_unique, h1, h2]
        exact ⟨_, rfl⟩

/-- Witness for C8: `--binary_parser --binary_to_json --problem_type CB` against
`--binary_parser --binary_to_json --multistep` with three rejected enumeration strings, both
on the data file "data.log". -/
theorem converter_depends_on_path_only_witness :
    sample_converter_options.ext_opts.binary = true ∧
    sample_converter_options.ext_opts.binary_to_json = true ∧
    sample_converter_bogus_options.ext_opts.binary = true ∧
    sample_converter_bogus_options.ext_opts.binary_to_json = true ∧
    sample_log_run.data_filename = sample_log_run_plain.data_filename ∧
    (getExternalParser sample_schema sample_log_run sample_converter_options).outcome =
      (getExternalParser sample_schema sample_log_run_plain
        sample_converter_bogus_options).outcome ∧
    ((∃ msg, (getExternalParser sample_schema sample_log_run
        sample_converter_options).outcome.1 = .error msg) ∨
     (∃ outfile_name, (getExternalParser sample_schema sample_log_run
        sample_converter_options).outcome.1 =
        .ok (.binary_json_converter ⟨.example_joiner_json true outfile_name, []⟩))) :=
  ⟨rfl, rfl, rfl, rfl, rfl,
    converter_depends_on_path_only sample_schema sample_log_run sample_log_run_plain
      sample_converter_options sample_converter_bogus_options rfl rfl rfl rfl rfl⟩

/-- C9. For every data file path of fewer than `npos` bytes that converter mode accepts, the
output file name handed to the joiner is the prefix of the path before its last `'.'` followed
by ".dsjson", it is the whole path followed by ".dsjson" when the path holds no `'.'`, and it
differs from the path. -/
theorem converter_outfile_name (sch : schema) (all : vw) (po : input_options) (p : parser)
    (hb : po.ext_opts.binary = true) (hj : po.ext_opts.binary_to_json = true)
    (hlen : all.data_filename.length < npos)
    (hacc : (getExternalParser sch all po).outcome.1 = .ok p) :
    ∃ outfile_name,
      p = .binary_json_converter ⟨.example_joiner_json true outfile_name, []⟩ ∧
      (∀ pre ext, all.data_filename = pre ++ dot :: ext → dot ∉ ext →
        outfile_name = pre ++ lit ".dsjson") ∧
      (dot ∉ all.data_filename → outfile_name = all.data_filename ++ lit ".dsjson") ∧
      outfile_name ≠ all.data_filename := by
  rw [converter_outcome sch all po hb hj hlen] at hacc
  by_cases he : after_last_dot all.data_filename = lit "dsjson"
  · simp [he] at hacc
  · simp only [he, if_false] at hacc
    have hp : p = .binary_json_converter ⟨.example_joiner_json true
        (all.data_filename.take (find_last_of all.data_filename dot) ++ lit ".dsjson"), []⟩ := by
      cases hacc
      rfl
    obtain ⟨hn1, hn2⟩ := name_eq all.data_filename hlen
    refine ⟨_, hp, ?_, ?_, ?_⟩
    · intro pre ext h1 h2
      rw [hn1 pre ext h1 h2]
    · intro h
      rw [hn2 h]
    · by_cases hd : dot ∈ all.data_filename
      · obtain ⟨pre, ext, h1, h2⟩ := split_at_last dot all.data_filename hd
        rw [hn1 pre ext h1 h2]
        intro e
        have hx : lit ".dsjson" = dot :: lit "dsjson" := by decide
        rw [hx, h1] at e
        have he2 : lit "dsjson" = ext := List.tail_eq_of_cons_eq (List.append_cancel_left e)
        apply he
        rw [h1, after_last_dot_split pre ext h2, he2]
      · rw [hn2 hd]
        intro e
        have := congrArg List.length e
        simp [lit] at this

/-- Witness for C9: `--binary_parser --binary_to_json` on the data file "data.log", which
gets the output file name "data.dsjson". -/
theorem converter_outfile_name_witness :
    sample_converter_options.ext_opts.binary = true ∧
    sample_converter_options.ext_opts.binary_to_json = true ∧
    sample_log_run.data_filename.length < npos ∧
    (getExternalParser sample_schema sample_log_run sample_converter_options).outcome.1 =
      .ok (.binary_json_converter ⟨.example_joiner_json true (lit "data.dsjson"), []⟩) ∧
    ∃ outfile_name,
      parser.binary_json_converter ⟨.example_joiner_json true (lit "data.dsjson"), []⟩ =
        .binary_json_converter ⟨.example_joiner_json true outfile_name, []⟩ ∧
      (∀ pre ext, sample_log_run.data_filename = pre ++ dot :: ext → dot ∉ ext →
        outfile_name = pre ++ lit ".dsjson") ∧
      (dot ∉ sample_log_run.data_filename →
        outfile_name = sample_log_run.data_filename ++ lit ".dsjson") ∧
      outfile_name ≠ sample_log_run.data_filename :=
  ⟨rfl, rfl, by decide, by decide,
    converter_outfile_name sample_schema sample_log_run sample_converter_options
      (.binary_json_converter ⟨.example_joiner_json true (lit "data.dsjson"), []⟩)
      rfl rfl (by decide) (by decide)⟩

end external
end VW
